import Mathlib

/-!
# dora: the slashings page handler and its page-cache key

A shallow embedding of `handlers/slashings.go`, of `handleTemplateError`
from `handlers/pageData.go` and of `getEpochPageData` from `handlers/epoch.go`.

* Go's `uint64` / `uint8` values are natural numbers; conversions and wrapping
  arithmetic are written out with `% 2 ^ w`.
* Functions of other packages (`services`, `db`, `utils`, `net/url`) that the
  handler calls are fields of an environment record or function arguments.
* A Go `panic` is the `Except.error` branch of the builder's result.
* A `float64` of the epoch page is kept as the expression that computes it.
-/

namespace Dora

/-! ## `fmt.Sprintf` with the `%v` verb -/

/-- An operand of `fmt.Sprintf`, tagged with its Go type. -/
inductive FmtArg where
  | u64 (n : Nat)
  | u8 (n : Nat)
  | str (s : String)
  deriving DecidableEq, Repr

/-- The `%v` rendering of an operand: integers in decimal, strings verbatim. -/
def fmtV : FmtArg → List Char
  | .u64 n => (Nat.repr n).data
  | .u8 n => (Nat.repr n).data
  | .str s => s.data

/-- The Go type name of an operand, as `fmt` prints it in its error markers. -/
def fmtTypeName : FmtArg → List Char
  | .u64 _ => "uint64".data
  | .u8 _ => "uint8".data
  | .str _ => "string".data

/-- The list `type=value, type=value` that `fmt` prints for surplus operands. -/
def fmtExtra : List FmtArg → List Char
  | [] => []
  | [a] => fmtTypeName a ++ '=' :: fmtV a
  | a :: b :: rest => fmtTypeName a ++ '=' :: fmtV a ++ ", ".data ++ fmtExtra (b :: rest)

/-- The loop of `fmt.Sprintf` over the format: plain characters are copied,
`%v` consumes the next operand (`%!v(MISSING)` when none is left), `%%` is a
percent sign, a trailing `%` is `%!(NOVERB)`, and operands left at the end are
reported as `%!(EXTRA ...)`.  The format strings of this package use `%v`
only: flags, widths and explicit operand indexes are not modelled, and any
other character `c` after `%` is rendered as Go renders a verb its operand
does not support, `%!c(type=value)`. -/
def sprintfChars : List Char → List FmtArg → List Char
  | [], [] => []
  | [], a :: as => "%!(EXTRA ".data ++ fmtExtra (a :: as) ++ [')']
  | ['%'], [] => "%!(NOVERB)".data
  | ['%'], a :: as => "%!(NOVERB)".data ++ "%!(EXTRA ".data ++ fmtExtra (a :: as) ++ [')']
  | '%' :: '%' :: rest, as => '%' :: sprintfChars rest as
  | '%' :: 'v' :: rest, a :: as => fmtV a ++ sprintfChars rest as
  | '%' :: c :: rest, [] => "%!".data ++ c :: "(MISSING)".data ++ sprintfChars rest []
  | '%' :: c :: rest, a :: as =>
      "%!".data ++ c :: '(' :: fmtTypeName a ++ '=' :: fmtV a ++ ')' :: sprintfChars rest as
  | c :: rest, as => c :: sprintfChars rest as

/-- The string returned by `fmt.Sprintf(format, args...)`. -/
def sprintf (format : String) (args : List FmtArg) : String :=
  String.mk (sprintfChars format.data args)

/-! ## The parameters of the slashings page -/

/-- The parameter list shared by `getFilteredSlashingsPageData` and
`buildFilteredSlashingsPageData`; the first six are `uint64`, the last two
`uint8`. -/
structure SlashingsArgs where
  pageIdx : Nat
  pageSize : Nat
  minSlot : Nat
  maxSlot : Nat
  minIndex : Nat
  maxIndex : Nat
  vname : String
  sname : String
  withReason : Nat
  withOrphaned : Nat
  deriving DecidableEq, Repr

/-- The value `pageCacheKey` of `getFilteredSlashingsPageData`. -/
def pageCacheKey (a : SlashingsArgs) : String :=
  sprintf "slashings:%v:%v:%v:%v:%v:%v:%v:%v:%v:%v"
    [.u64 a.pageIdx, .u64 a.pageSize, .u64 a.minSlot, .u64 a.maxSlot, .u64 a.minIndex,
     .u64 a.maxIndex, .str a.vname, .str a.sname, .u8 a.withReason, .u8 a.withOrphaned]

/-! ## Go errors and `errors.Is` -/

/-- A non-nil Go `error` value.  `errno` is a `syscall.Errno`; `plain` is an
error without `Unwrap` (such as the result of `errors.New`), `wrap` an error
whose `Unwrap()` returns one error, `join` one whose `Unwrap()` returns a
slice.  The string fields are the dynamic type (what `%T` prints) and the
message.  Of the `Is` methods only the one of `syscall.Errno` is accounted
for. -/
inductive GoError where
  | errno (n : Nat)
  | plain (typeName : String) (msg : String)
  | wrap (typeName : String) (msg : String) (inner : GoError)
  | join (typeName : String) (errs : List GoError)

/-- The constant `syscall.EPIPE`. -/
def EPIPE : Nat := 32

/-- The constant `syscall.ETIMEDOUT`. -/
def ETIMEDOUT : Nat := 110

/-- The constant `http.StatusServiceUnavailable`. -/
def StatusServiceUnavailable : Nat := 503

/-- The rendering of `fmt.Sprintf("%T", err)`. -/
def goTypeName : GoError → String
  | .errno _ => "syscall.Errno"
  | .plain t _ => t
  | .wrap t _ _ => t
  | .join t _ => t

mutual
/-- The walk of `errors.Is` over the tree of a non-nil error, for a target
of type `syscall.Errno`: a node matches when it is that very `Errno` (the
`Is` method of `Errno` answers `false` for an `Errno` target), otherwise the
walk goes on through `Unwrap`. -/
def isErrno (target : Nat) : GoError → Bool
  | .errno n => n == target
  | .plain _ _ => false
  | .wrap _ _ inner => isErrno target inner
  | .join _ errs => isErrnoAny target errs
/-- The loop of `errors.Is` over the slice of a multi-error. -/
def isErrnoAny (target : Nat) : List GoError → Bool
  | [] => false
  | e :: es => isErrno target e || isErrnoAny target es
end

/-- The call `errors.Is(err, target)` with `target` a `syscall.Errno`; a nil
`err` is `none`. -/
def errorsIs (err : Option GoError) (target : Nat) : Bool :=
  match err with
  | none => false
  | some e => isErrno target e

/-- What a panicking builder panics with: the value given to `panic`, or the
runtime error of an integer division by zero. -/
inductive Panic where
  | value (e : GoError)
  | divideByZero

/-! ## Machine integers -/

/-- Truncation to `uint64`. -/
def wrap64 (n : Nat) : Nat := n % 2 ^ 64

/-- Truncation to `uint32`. -/
def wrap32 (n : Nat) : Nat := n % 2 ^ 32

/-- Truncation to `uint8`. -/
def wrap8 (n : Nat) : Nat := n % 2 ^ 8

/-! ## The page model -/

/-- A row of the `slashings` table as the handler reads it (`dbtypes.Slashing`). -/
structure DbSlashing where
  SlotNumber : Nat
  SlotRoot : List Nat
  Orphaned : Bool
  Reason : Nat
  ValidatorIndex : Nat
  SlasherIndex : Nat
  deriving DecidableEq, Repr

/-- The filter handed to the database (`dbtypes.SlashingFilter`). -/
structure SlashingFilter where
  MinSlot : Nat
  MaxSlot : Nat
  MinIndex : Nat
  MaxIndex : Nat
  ValidatorName : String
  SlasherName : String
  WithReason : Nat
  WithOrphaned : Nat
  deriving DecidableEq, Repr

/-- The fields of a `v1.Validator` the handler reads; `Status` is the integer
value of the `v1.ValidatorState`. -/
structure Validator where
  Index : Nat
  Balance : Nat
  Status : Nat
  deriving DecidableEq, Repr

/-- The constant `v1.ValidatorStateActiveOngoing`. -/
def ValidatorStateActiveOngoing : Nat := 3

/-- The constant `v1.ValidatorStateActiveExiting`. -/
def ValidatorStateActiveExiting : Nat := 4

/-- The constant `v1.ValidatorStateActiveSlashed`. -/
def ValidatorStateActiveSlashed : Nat := 5

/-- The constant `v1.ValidatorStateExitedUnslashed`. -/
def ValidatorStateExitedUnslashed : Nat := 6

/-- The constant `v1.ValidatorStateExitedSlashed`. -/
def ValidatorStateExitedSlashed : Nat := 7

/-- One entry of the page's table (`models.SlashingsPageDataSlashing`). -/
structure SlashingsPageDataSlashing where
  SlotNumber : Nat := 0
  SlotRoot : List Nat := []
  Time : Int := 0
  Orphaned : Bool := false
  Reason : Nat := 0
  ValidatorIndex : Nat := 0
  ValidatorName : String := ""
  SlasherIndex : Nat := 0
  SlasherName : String := ""
  ValidatorStatus : String := ""
  Balance : Nat := 0
  ShowUpcheck : Bool := false
  UpcheckActivity : Nat := 0
  UpcheckMaximum : Nat := 0
  deriving DecidableEq, Repr

/-- The view model of the page (`models.SlashingsPageData`); the defaults are
Go's zero values, so `{}` is the placeholder `&models.SlashingsPageData{}`. -/
structure SlashingsPageData where
  FilterMinSlot : Nat := 0
  FilterMaxSlot : Nat := 0
  FilterMinIndex : Nat := 0
  FilterMaxIndex : Nat := 0
  FilterValidatorName : String := ""
  FilterSlasherName : String := ""
  FilterWithReason : Nat := 0
  FilterWithOrphaned : Nat := 0
  Slashings : List SlashingsPageDataSlashing := []
  SlashingCount : Nat := 0
  FirstIndex : Nat := 0
  LastIndex : Nat := 0
  IsDefaultPage : Bool := false
  TotalPages : Nat := 0
  PageSize : Nat := 0
  CurrentPageIndex : Nat := 0
  PrevPageIndex : Nat := 0
  NextPageIndex : Nat := 0
  LastPageIndex : Nat := 0
  FirstPageLink : String := ""
  PrevPageLink : String := ""
  NextPageLink : String := ""
  LastPageLink : String := ""
  deriving DecidableEq, Repr

/-- A value of type `interface{}` as the page cache hands it back: the nil
interface, a `*models.SlashingsPageData` (`none` being the nil pointer of that
type), or a value of any other dynamic type, named by its type. -/
inductive GoAny where
  | nil
  | slashingsPage (p : Option SlashingsPageData)
  | other (dynType : String)

/-! ## The collaborators of the handler -/

/-- The functions and variables of other packages that the slashings handler
uses.  `ProcessCachedPage` takes the key, the caching flag, the placeholder
and the build closure and answers a payload and an error;
`GetSlashingsFiltered` takes offset, limit, finalized epoch and filter and
answers rows, total row count and an error. -/
structure Services where
  ErrInvalidPageModel : GoError
  ProcessCachedPage : String → Bool → GoAny → (Unit → Except Panic GoAny) → GoAny × Option GoError
  GetFinalizedEpoch : Int
  GetSlashingsFiltered : Nat → Nat → Nat → SlashingFilter → List DbSlashing × Nat × Option GoError
  GetCachedValidatorSet : Nat → Option Validator
  GetValidatorActivity : (Nat → Nat) × Nat
  GetValidatorName : Nat → String
  SlotToTime : Nat → Int
  ValidatorStateString : Nat → String
  UrlValuesEncode : List (String × String) → String

/-! ## `buildFilteredSlashingsPageData` -/

/-- The query arguments collected in `filterArgs`, in the order of the `Add`
calls. -/
def slashingsFilterArgs (a : SlashingsArgs) : List (String × String) :=
  (if a.minSlot ≠ 0 then [("f.mins", sprintf "%v" [.u64 a.minSlot])] else []) ++
  (if a.maxSlot ≠ 0 then [("f.maxs", sprintf "%v" [.u64 a.maxSlot])] else []) ++
  (if a.minIndex ≠ 0 then [("f.mini", sprintf "%v" [.u64 a.minIndex])] else []) ++
  (if a.maxIndex ≠ 0 then [("f.maxi", sprintf "%v" [.u64 a.maxIndex])] else []) ++
  (if a.vname ≠ "" then [("f.vname", a.vname)] else []) ++
  (if a.sname ≠ "" then [("f.sname", a.sname)] else []) ++
  (if a.withReason ≠ 0 then [("f.reason", sprintf "%v" [.u8 a.withReason])] else []) ++
  (if a.withOrphaned ≠ 0 then [("f.orphaned", sprintf "%v" [.u8 a.withOrphaned])] else [])

/-- The call `strings.HasPrefix(s, p)`. -/
def stringsHasPrefix (s p : String) : Bool :=
  p.data.isPrefixOf s.data

/-- The body of the loop over `dbSlashings`: the table entry built for one
database row. -/
def slashingsPageEntry (sv : Services) (slashing : DbSlashing) : SlashingsPageDataSlashing :=
  let slashingData : SlashingsPageDataSlashing :=
    { SlotNumber := slashing.SlotNumber
      SlotRoot := slashing.SlotRoot
      Time := sv.SlotToTime slashing.SlotNumber
      Orphaned := slashing.Orphaned
      Reason := wrap8 slashing.Reason
      ValidatorIndex := slashing.ValidatorIndex
      ValidatorName := sv.GetValidatorName slashing.ValidatorIndex
      SlasherIndex := slashing.SlasherIndex
      SlasherName := sv.GetValidatorName slashing.SlasherIndex
      ValidatorStatus := "" }
  match sv.GetCachedValidatorSet slashing.ValidatorIndex with
  | none => { slashingData with ValidatorStatus := "Unknown" }
  | some validator =>
    let slashingData := { slashingData with Balance := validator.Balance }
    let slashingData :=
      if stringsHasPrefix (sv.ValidatorStateString validator.Status) "pending" then
        { slashingData with ValidatorStatus := "Pending" }
      else if validator.Status = ValidatorStateActiveOngoing then
        { slashingData with ValidatorStatus := "Active", ShowUpcheck := true }
      else if validator.Status = ValidatorStateActiveExiting then
        { slashingData with ValidatorStatus := "Exiting", ShowUpcheck := true }
      else if validator.Status = ValidatorStateActiveSlashed then
        { slashingData with ValidatorStatus := "Slashed", ShowUpcheck := true }
      else if validator.Status = ValidatorStateExitedUnslashed then
        { slashingData with ValidatorStatus := "Exited" }
      else if validator.Status = ValidatorStateExitedSlashed then
        { slashingData with ValidatorStatus := "Slashed" }
      else
        { slashingData with ValidatorStatus := sv.ValidatorStateString validator.Status }
    if slashingData.ShowUpcheck then
      { slashingData with
        UpcheckActivity := sv.GetValidatorActivity.1 validator.Index
        UpcheckMaximum := wrap8 sv.GetValidatorActivity.2 }
    else slashingData

/-- The `SlotNumber` of `pageData.Slashings[i]`. -/
def slotNumberAt (l : List SlashingsPageDataSlashing) (i : Nat) : Nat :=
  (l[i]?.map (fun e => e.SlotNumber)).getD 0

/-- The capped page size used by the builder. -/
def cappedPageSize (a : SlashingsArgs) : Nat :=
  if a.pageSize > 100 then 100 else a.pageSize

/-- The call of `db.GetSlashingsFiltered` made by the builder: offset
`(pageIdx - 1) * pageSize` in `uint64` arithmetic, limit `uint32(pageSize)`,
the finalized epoch (a negative one counted as `0`) and the filter. -/
def slashingsDbCall (sv : Services) (a : SlashingsArgs) : List DbSlashing × Nat × Option GoError :=
  let pageSize := cappedPageSize a
  let finalizedEpoch := if sv.GetFinalizedEpoch < 0 then 0 else sv.GetFinalizedEpoch
  let slashingFilter : SlashingFilter :=
    { MinSlot := a.minSlot
      MaxSlot := a.maxSlot
      MinIndex := a.minIndex
      MaxIndex := a.maxIndex
      ValidatorName := a.vname
      SlasherName := a.sname
      WithReason := a.withReason
      WithOrphaned := a.withOrphaned }
  let offset := wrap64 (wrap64 (a.pageIdx + 2 ^ 64 - 1) * pageSize)
  sv.GetSlashingsFiltered offset (wrap32 pageSize) (wrap64 finalizedEpoch.toNat) slashingFilter

/-- The page model as it stands before the database is asked: the filter
fields, the default-page flag, the capped page size and the page indexes. -/
def initialPageData (a : SlashingsArgs) : SlashingsPageData :=
  let pageData : SlashingsPageData :=
    { FilterMinSlot := a.minSlot
      FilterMaxSlot := a.maxSlot
      FilterMinIndex := a.minIndex
      FilterMaxIndex := a.maxIndex
      FilterValidatorName := a.vname
      FilterSlasherName := a.sname
      FilterWithReason := a.withReason
      FilterWithOrphaned := a.withOrphaned }
  let pageData := if a.pageIdx = 1 then { pageData with IsDefaultPage := true } else pageData
  let pageSize := cappedPageSize a
  let pageData :=
    { pageData with PageSize := pageSize, TotalPages := a.pageIdx, CurrentPageIndex := a.pageIdx }
  if a.pageIdx > 1 then { pageData with PrevPageIndex := a.pageIdx - 1 } else pageData

/-- The loop over the rows and the three statements after it: the table, its
length, and the slot numbers of the first and last entry. -/
def withSlashings (sv : Services) (dbSlashings : List DbSlashing) (pageData : SlashingsPageData) :
    SlashingsPageData :=
  let pageData :=
    { pageData with Slashings := pageData.Slashings ++ dbSlashings.map (slashingsPageEntry sv) }
  let pageData := { pageData with SlashingCount := wrap64 pageData.Slashings.length }
  if pageData.SlashingCount > 0 then
    { pageData with
      FirstIndex := slotNumberAt pageData.Slashings 0
      LastIndex := slotNumberAt pageData.Slashings (pageData.SlashingCount - 1) }
  else pageData

/-- The page count and the indexes of the last and next page, for a page size
that is not zero. -/
def withPaging (a : SlashingsArgs) (totalRows : Nat) (pageData : SlashingsPageData) :
    SlashingsPageData :=
  let pageSize := cappedPageSize a
  let pageData := { pageData with TotalPages := totalRows / pageSize }
  let pageData :=
    if totalRows % pageSize > 0 then
      { pageData with TotalPages := wrap64 (pageData.TotalPages + 1) }
    else pageData
  let pageData := { pageData with LastPageIndex := pageData.TotalPages }
  if a.pageIdx < pageData.TotalPages then
    { pageData with NextPageIndex := wrap64 (a.pageIdx + 1) }
  else pageData

/-- The four page links. -/
def withLinks (sv : Services) (a : SlashingsArgs) (pageData : SlashingsPageData) :
    SlashingsPageData :=
  let enc := sv.UrlValuesEncode (slashingsFilterArgs a)
  { pageData with
    FirstPageLink :=
      sprintf "/validators/slashings?f&%v&c=%v" [.str enc, .u64 pageData.PageSize]
    PrevPageLink :=
      sprintf "/validators/slashings?f&%v&c=%v&p=%v"
        [.str enc, .u64 pageData.PageSize, .u64 pageData.PrevPageIndex]
    NextPageLink :=
      sprintf "/validators/slashings?f&%v&c=%v&p=%v"
        [.str enc, .u64 pageData.PageSize, .u64 pageData.NextPageIndex]
    LastPageLink :=
      sprintf "/validators/slashings?f&%v&c=%v&p=%v"
        [.str enc, .u64 pageData.PageSize, .u64 pageData.LastPageIndex] }

/-- The builder of the page model.  It panics (`Except.error`) with the
database error when the query fails and with the runtime error when the
capped page size is zero at the division; otherwise it returns the model. -/
def buildFilteredSlashingsPageData (sv : Services) (a : SlashingsArgs) :
    Except Panic SlashingsPageData :=
  let pageData := initialPageData a
  match slashingsDbCall sv a with
  | (_, _, some err) => .error (.value err)
  | (dbSlashings, totalRows, none) =>
    let pageData := withSlashings sv dbSlashings pageData
    if cappedPageSize a = 0 then .error .divideByZero
    else .ok (withLinks sv a (withPaging a totalRows pageData))

/-! ## `getFilteredSlashingsPageData` -/

/-- The type assertion `pageRes.(*models.SlashingsPageData)`: the pointer when
the dynamic type is that one (`resOk`), `none` otherwise. -/
def GoAny.asSlashingsPage : GoAny → Option (Option SlashingsPageData)
  | .slashingsPage p => some p
  | _ => none

/-- The test `pageRes != nil` on an interface value. -/
def GoAny.isNonNil : GoAny → Bool
  | .nil => false
  | _ => true

/-- The closure handed to the cache; a returned model is boxed as
`interface{}`, a panic passes through. -/
def slashingsBuildFn (sv : Services) (a : SlashingsArgs) : Unit → Except Panic GoAny :=
  fun _ => (buildFilteredSlashingsPageData sv a).map (fun p => GoAny.slashingsPage (some p))

/-- The call of `ProcessCachedPage` made by `getFilteredSlashingsPageData`,
with the placeholder `&models.SlashingsPageData{}`. -/
def slashingsCacheCall (sv : Services) (a : SlashingsArgs) : GoAny × Option GoError :=
  sv.ProcessCachedPage (pageCacheKey a) true (.slashingsPage (some {})) (slashingsBuildFn sv a)

/-- The cached page lookup: the key is built, the cache is asked with the
placeholder and the build closure, and the answer is type-checked.  The result
is the returned pointer (`none` for nil) and the returned error. -/
def getFilteredSlashingsPageData (sv : Services) (a : SlashingsArgs) :
    Option SlashingsPageData × Option GoError :=
  let pageData : Option SlashingsPageData := some {}
  let (pageRes, pageErr) := slashingsCacheCall sv a
  if pageErr.isNone && pageRes.isNonNil then
    match pageRes.asSlashingsPage with
    | none => (none, some sv.ErrInvalidPageModel)
    | some resData => (resData, pageErr)
  else (pageData, pageErr)

/-! ## `handleTemplateError` -/

/-- The rendering of `fmt.Sprintf("%T", err)` for a possibly nil error. -/
def errorTypeName : Option GoError → String
  | none => "<nil>"
  | some e => goTypeName e

/-- One log entry written by `handleTemplateError`: the five fields, the
error given to `WithError` and the message. -/
structure LogRecord where
  file : String
  function : String
  info : String
  errorType : String
  route : String
  error : Option GoError
  message : String

/-- What the template error handler can touch: the log and the calls of
`http.Error` on the response writer, each a message and a status code. -/
structure Effects where
  log : List LogRecord
  httpErrors : List (String × Nat)

/-- The log entry of `handleTemplateError`. -/
def templateErrorRecord (route : String) (fileIdentifier : String) (functionIdentifier : String)
    (infoIdentifier : String) (err : Option GoError) : LogRecord :=
  { file := fileIdentifier
    function := functionIdentifier
    info := infoIdentifier
    errorType := errorTypeName err
    route := route
    error := err
    message := "error executing template" }

/-- The handler of template errors; `route` is `r.URL.String()`.  It returns
the error it was given and the effects after the call. -/
def handleTemplateError (fx : Effects) (route : String) (fileIdentifier : String)
    (functionIdentifier : String) (infoIdentifier : String) (err : Option GoError) :
    Option GoError × Effects :=
  if err.isSome && !errorsIs err EPIPE && !errorsIs err ETIMEDOUT then
    (err,
      { log := fx.log ++
          [templateErrorRecord route fileIdentifier functionIdentifier infoIdentifier err]
        httpErrors := fx.httpErrors ++ [("Internal server error", StatusServiceUnavailable)] })
  else (err, fx)

/-! ## The query arguments read by `Slashings` -/

/-- The value of `strconv.ParseUint(s, 10, 64)` with the error dropped: `0`
for the empty string and for any character that is not a decimal digit, the
largest `uint64` when the number is out of range. -/
def parseUint (s : String) : Nat :=
  if s.data = [] then 0 else go s.data 0
where
  /-- The digit loop, `n` being the number read so far. -/
  go : List Char → Nat → Nat
    | [], n => n
    | c :: cs, n =>
      if '0' ≤ c ∧ c ≤ '9' then
        if n ≥ (2 ^ 64 - 1) / 10 + 1 then 2 ^ 64 - 1
        else
          let n1 := n * 10 + (c.toNat - '0'.toNat)
          if n1 > 2 ^ 64 - 1 then 2 ^ 64 - 1 else go cs n1
      else 0

/-- The query of a request (`url.Values`): for each key the list of its
values, or `none` when the key is absent. -/
abbrev UrlValues := String → Option (List String)

/-- The method `url.Values.Has`. -/
def UrlValues.Has (v : UrlValues) (key : String) : Bool :=
  (v key).isSome

/-- The method `url.Values.Get`: the first value of the key, or `""`. -/
def UrlValues.Get (v : UrlValues) (key : String) : String :=
  match v key with
  | some (x :: _) => x
  | _ => ""

/-- The value read for an optional numeric query argument. -/
def uintArg (urlArgs : UrlValues) (key : String) (dflt : Nat) : Nat :=
  if urlArgs.Has key then parseUint (urlArgs.Get key) else dflt

/-- The value read for an optional textual query argument. -/
def stringArg (urlArgs : UrlValues) (key : String) : String :=
  if urlArgs.Has key then urlArgs.Get key else ""

/-- The arguments that `Slashings` computes from the query and hands to
`getFilteredSlashingsPageData`. -/
def slashingsRequestArgs (urlArgs : UrlValues) : SlashingsArgs :=
  let pageSize := uintArg urlArgs "c" 50
  let pageIdx :=
    if urlArgs.Has "p" then
      let pageIdx := parseUint (urlArgs.Get "p")
      if pageIdx < 1 then 1 else pageIdx
    else 1
  if urlArgs.Has "f" then
    { pageIdx := pageIdx
      pageSize := pageSize
      minSlot := uintArg urlArgs "f.mins" 0
      maxSlot := uintArg urlArgs "f.maxs" 0
      minIndex := uintArg urlArgs "f.mini" 0
      maxIndex := uintArg urlArgs "f.maxi" 0
      vname := stringArg urlArgs "f.vname"
      sname := stringArg urlArgs "f.sname"
      withReason := wrap8 (uintArg urlArgs "f.reason" 0)
      withOrphaned := wrap8 (uintArg urlArgs "f.orphaned" 0) }
  else
    { pageIdx := pageIdx
      pageSize := pageSize
      minSlot := 0
      maxSlot := 0
      minIndex := 0
      maxIndex := 0
      vname := ""
      sname := ""
      withReason := wrap8 0
      withOrphaned := wrap8 1 }

/-- A query without arguments. -/
def emptyQuery : UrlValues := fun _ => none

/-! ## The epoch page (`handlers/epoch.go`) -/

/-- A `float64` value of the epoch page, kept as the expression that computes
it: a conversion from `uint64`, a conversion from a `float32` given by its
bits, an integral constant, a product or a quotient. -/
inductive Float64Expr where
  | ofUint (n : Nat)
  | ofFloat32 (bits : Nat)
  | lit (n : Nat)
  | mul (x y : Float64Expr)
  | div (x y : Float64Expr)
  deriving DecidableEq, Repr

/-- The fields of a database epoch row that the handler reads;
`SyncParticipation` is a `float32`, given by its bits. -/
structure DbEpoch where
  AttestationCount : Nat
  DepositCount : Nat
  ExitCount : Nat
  WithdrawCount : Nat
  WithdrawAmount : Nat
  ProposerSlashingCount : Nat
  AttesterSlashingCount : Nat
  Eligible : Nat
  VotedTarget : Nat
  VotedHead : Nat
  VotedTotal : Nat
  SyncParticipation : Nat
  ValidatorCount : Nat
  ValidatorBalance : Nat
  deriving DecidableEq, Repr

/-- The fields of a database block row that the handler reads. -/
structure DbBlock where
  Slot : Nat
  Orphaned : Bool
  Proposer : Nat
  AttestationCount : Nat
  DepositCount : Nat
  ExitCount : Nat
  ProposerSlashingCount : Nat
  AttesterSlashingCount : Nat
  SyncParticipation : Nat
  EthTransactionCount : Nat
  EthBlockNumber : Nat
  Graffiti : List Nat
  Root : List Nat
  deriving DecidableEq, Repr

/-- One entry of the slot table (`models.EpochPageDataSlot`). -/
structure EpochPageDataSlot where
  Slot : Nat := 0
  Epoch : Nat := 0
  Ts : Int := 0
  Scheduled : Bool := false
  Status : Nat := 0
  Proposer : Nat := 0
  ProposerName : String := ""
  AttestationCount : Nat := 0
  DepositCount : Nat := 0
  ExitCount : Nat := 0
  ProposerSlashingCount : Nat := 0
  AttesterSlashingCount : Nat := 0
  SyncParticipation : Float64Expr := .lit 0
  EthTransactionCount : Nat := 0
  EthBlockNumber : Nat := 0
  Graffiti : List Nat := []
  BlockRoot : List Nat := []
  deriving DecidableEq, Repr

/-- The view model of the epoch page (`models.EpochPageData`); the defaults
are Go's zero values. -/
structure EpochPageData where
  Epoch : Nat := 0
  PreviousEpoch : Nat := 0
  NextEpoch : Nat := 0
  Ts : Int := 0
  Synchronized : Bool := false
  Finalized : Bool := false
  AttestationCount : Nat := 0
  DepositCount : Nat := 0
  ExitCount : Nat := 0
  WithdrawalCount : Nat := 0
  WithdrawalAmount : Nat := 0
  ProposerSlashingCount : Nat := 0
  AttesterSlashingCount : Nat := 0
  EligibleEther : Nat := 0
  TargetVoted : Nat := 0
  HeadVoted : Nat := 0
  TotalVoted : Nat := 0
  TargetVoteParticipation : Float64Expr := .lit 0
  HeadVoteParticipation : Float64Expr := .lit 0
  TotalVoteParticipation : Float64Expr := .lit 0
  SyncParticipation : Float64Expr := .lit 0
  ValidatorCount : Nat := 0
  AverageValidatorBalance : Nat := 0
  BlockCount : Nat := 0
  CanonicalCount : Nat := 0
  OrphanedCount : Nat := 0
  ScheduledCount : Nat := 0
  MissedCount : Nat := 0
  Slots : List EpochPageDataSlot := []
  deriving DecidableEq, Repr

/-- The functions and values of other packages that `getEpochPageData`
uses.  `now` is `now.Unix()`; `GetFinalizedBlockHead` is the slot found in the
finalized head, `none` when a pointer on the way to it is nil;
`GetProposerAssignments` answers the proposer of each slot and the
synchronized flag of each epoch (two Go maps); `GetDbEpochs` and
`GetDbBlocksForSlots` answer slices whose entries may be nil. -/
structure EpochServices where
  now : Int
  TimeToSlot : Nat → Nat
  EpochOfSlot : Nat → Nat
  EpochToTime : Nat → Int
  SlotToTime : Nat → Int
  SlotsPerEpoch : Nat
  GetFinalizedBlockHead : Option Nat
  GetProposerAssignments : Nat → Nat → (Nat → Nat) × (Nat → Bool)
  GetDbEpochs : Nat → Nat → List (Option DbEpoch)
  GetDbBlocksForSlots : Nat → Nat → Bool → List (Option DbBlock)

/-- How a call of `getEpochPageData` can fail to return: a runtime panic
(index out of range, nil pointer dereference, integer division by zero) or a
slot loop that never ends. -/
inductive EpochFault where
  | indexOutOfRange
  | nilDereference
  | divideByZero
  | endlessLoop
  deriving DecidableEq, Repr

/-- The conversion `int64(x)` of a `uint64`. -/
def toInt64 (n : Nat) : Int :=
  if n % 2 ^ 64 < 2 ^ 63 then ((n % 2 ^ 64 : Nat) : Int) else ((n % 2 ^ 64 : Nat) : Int) - 2 ^ 64

/-- The conversion `uint64(x)` of an `int64`. -/
def ofInt64 (i : Int) : Nat :=
  (i % 2 ^ 64).toNat

/-- The page model built by the composite literal and the participation
rates that follow it; `finalizedSlot` is the slot of the finalized head. -/
def epochHeader (es : EpochServices) (epoch nextEpoch lastSlot finalizedSlot : Nat)
    (syncedEpochs : Nat → Bool) (dbEpoch : DbEpoch) : EpochPageData :=
  let pageData : EpochPageData :=
    { Epoch := epoch
      PreviousEpoch := wrap64 (epoch + 2 ^ 64 - 1)
      NextEpoch := nextEpoch
      Ts := es.EpochToTime epoch
      Synchronized := syncedEpochs epoch
      Finalized := decide (finalizedSlot ≥ lastSlot)
      AttestationCount := dbEpoch.AttestationCount
      DepositCount := dbEpoch.DepositCount
      ExitCount := dbEpoch.ExitCount
      WithdrawalCount := dbEpoch.WithdrawCount
      WithdrawalAmount := dbEpoch.WithdrawAmount
      ProposerSlashingCount := dbEpoch.ProposerSlashingCount
      AttesterSlashingCount := dbEpoch.AttesterSlashingCount
      EligibleEther := dbEpoch.Eligible
      TargetVoted := dbEpoch.VotedTarget
      HeadVoted := dbEpoch.VotedHead
      TotalVoted := dbEpoch.VotedTotal
      SyncParticipation := .mul (.ofFloat32 dbEpoch.SyncParticipation) (.lit 100)
      ValidatorCount := dbEpoch.ValidatorCount
      AverageValidatorBalance := dbEpoch.ValidatorBalance / dbEpoch.ValidatorCount }
  let pageData :=
    if dbEpoch.Eligible > 0 then
      { pageData with
        TargetVoteParticipation :=
          .div (.mul (.ofUint dbEpoch.VotedTarget) (.lit 100)) (.ofUint dbEpoch.Eligible)
        HeadVoteParticipation :=
          .div (.mul (.ofUint dbEpoch.VotedHead) (.lit 100)) (.ofUint dbEpoch.Eligible)
        TotalVoteParticipation :=
          .div (.mul (.ofUint dbEpoch.VotedTotal) (.lit 100)) (.ofUint dbEpoch.Eligible) }
    else pageData
  { pageData with Slots := [] }

/-- The body of the inner loop: the block `dbSlot` found for `slot` is
counted as orphaned or canonical and its entry is appended. -/
def addBlockSlot (es : EpochServices) (slot : Nat) (dbSlot : DbBlock) (pageData : EpochPageData) :
    EpochPageData :=
  let blockStatus := if dbSlot.Orphaned then 2 else 1
  let pageData :=
    if dbSlot.Orphaned then { pageData with OrphanedCount := wrap64 (pageData.OrphanedCount + 1) }
    else { pageData with CanonicalCount := wrap64 (pageData.CanonicalCount + 1) }
  let slotData : EpochPageDataSlot :=
    { Slot := slot
      Epoch := es.EpochOfSlot slot
      Ts := es.SlotToTime slot
      Status := blockStatus
      Proposer := dbSlot.Proposer
      ProposerName := ""
      AttestationCount := dbSlot.AttestationCount
      DepositCount := dbSlot.DepositCount
      ExitCount := dbSlot.ExitCount
      ProposerSlashingCount := dbSlot.ProposerSlashingCount
      AttesterSlashingCount := dbSlot.AttesterSlashingCount
      SyncParticipation := .mul (.ofFloat32 dbSlot.SyncParticipation) (.lit 100)
      EthTransactionCount := dbSlot.EthTransactionCount
      EthBlockNumber := dbSlot.EthBlockNumber
      Graffiti := dbSlot.Graffiti
      BlockRoot := dbSlot.Root }
  { pageData with Slots := pageData.Slots ++ [slotData] }

/-- The branch `!haveBlock`: the entry of a slot without block is counted
as scheduled or missed and appended. -/
def addEmptySlot (es : EpochServices) (epoch currentSlot slot : Nat) (slotAssignments : Nat → Nat)
    (pageData : EpochPageData) : EpochPageData :=
  let slotData : EpochPageDataSlot :=
    { Slot := slot
      Epoch := epoch
      Ts := es.SlotToTime slot
      Scheduled := decide (slot ≥ currentSlot)
      Status := 0
      Proposer := slotAssignments slot
      ProposerName := "" }
  let pageData :=
    if slotData.Scheduled then
      { pageData with ScheduledCount := wrap64 (pageData.ScheduledCount + 1) }
    else { pageData with MissedCount := wrap64 (pageData.MissedCount + 1) }
  { pageData with Slots := pageData.Slots ++ [slotData] }

/-- The state carried through the slot loop: the part `dbSlots[dbIdx:]` of
the database blocks not yet consumed, the page model and the local
`blockCount`. -/
structure SlotLoopState where
  dbSlots : List (Option DbBlock)
  pageData : EpochPageData
  blockCount : Nat

/-- The inner loop for one slot: as long as the next database block is
non-nil and belongs to `slot` it is consumed.  The flag is `haveBlock`. -/
def blockLoop (es : EpochServices) (slot : Nat) :
    List (Option DbBlock) → EpochPageData → Nat → Bool → SlotLoopState × Bool
  | some dbSlot :: rest, pageData, blockCount, haveBlock =>
    if dbSlot.Slot = slot then
      blockLoop es slot rest (addBlockSlot es slot dbSlot pageData) (wrap64 (blockCount + 1)) true
    else (⟨some dbSlot :: rest, pageData, blockCount⟩, haveBlock)
  | rest, pageData, blockCount, haveBlock => (⟨rest, pageData, blockCount⟩, haveBlock)

/-- One pass of the outer loop, for the slot `uint64(slotIdx)`. -/
def slotStep (es : EpochServices) (epoch currentSlot : Nat) (slotAssignments : Nat → Nat)
    (slotIdx : Int) (st : SlotLoopState) : SlotLoopState :=
  let slot := ofInt64 slotIdx
  let (st, haveBlock) := blockLoop es slot st.dbSlots st.pageData st.blockCount false
  if !haveBlock then
    { st with
      pageData := addEmptySlot es epoch currentSlot slot slotAssignments st.pageData
      blockCount := wrap64 (st.blockCount + 1) }
  else st

/-- The outer loop run for `n` passes from `slotIdx` downwards. -/
def slotLoop (es : EpochServices) (epoch currentSlot : Nat) (slotAssignments : Nat → Nat) :
    Nat → Int → SlotLoopState → SlotLoopState
  | 0, _, st => st
  | n + 1, slotIdx, st =>
    slotLoop es epoch currentSlot slotAssignments n (slotIdx - 1)
      (slotStep es epoch currentSlot slotAssignments slotIdx st)

/-- The builder of the epoch page.  The result is `none` for Go's nil (a
future epoch, or no database row for the epoch).  The loop
`for slotIdx := int64(lastSlot); slotIdx >= int64(firstSlot); slotIdx--`
makes `int64(lastSlot) - int64(firstSlot) + 1` passes (none when that is
negative) unless `int64(firstSlot)` is the least `int64`, in which case its
condition holds for ever. -/
def getEpochPageData (es : EpochServices) (epoch : Nat) :
    Except EpochFault (Option EpochPageData) :=
  let currentSlot := es.TimeToSlot (ofInt64 es.now)
  let currentEpoch := es.EpochOfSlot currentSlot
  if epoch > currentEpoch then .ok none
  else
    let (slotAssignments, syncedEpochs) := es.GetProposerAssignments epoch epoch
    match es.GetDbEpochs epoch 1 with
    | [] => .error .indexOutOfRange
    | none :: _ => .ok none
    | some dbEpoch :: _ =>
      let nextEpoch := if wrap64 (epoch + 1) > currentEpoch then 0 else wrap64 (epoch + 1)
      let firstSlot := wrap64 (epoch * es.SlotsPerEpoch)
      let lastSlot := wrap64 (firstSlot + es.SlotsPerEpoch + 2 ^ 64 - 1)
      match es.GetFinalizedBlockHead with
      | none => .error .nilDereference
      | some finalizedSlot =>
        if dbEpoch.ValidatorCount = 0 then .error .divideByZero
        else
          let pageData :=
            epochHeader es epoch nextEpoch lastSlot finalizedSlot syncedEpochs dbEpoch
          let dbSlots := es.GetDbBlocksForSlots lastSlot (wrap32 es.SlotsPerEpoch) true
          if toInt64 firstSlot = -(2 ^ 63) then .error .endlessLoop
          else
            let st := slotLoop es epoch currentSlot slotAssignments
              (toInt64 lastSlot - toInt64 firstSlot + 1).toNat (toInt64 lastSlot)
              ⟨dbSlots, pageData, 0⟩
            .ok (some { st.pageData with BlockCount := st.blockCount })

/-- The relation kept by the slot loop between the page model and the
local `blockCount`: there are numbers of canonical, orphaned, scheduled and
missed entries that add up to the length of `Slots`, and the four counters
and `blockCount` are these numbers in `uint64`. -/
def CountsAgree (pageData : EpochPageData) (blockCount : Nat) : Prop :=
  ∃ c o s m : Nat,
    pageData.CanonicalCount = wrap64 c ∧ pageData.OrphanedCount = wrap64 o ∧
    pageData.ScheduledCount = wrap64 s ∧ pageData.MissedCount = wrap64 m ∧
    blockCount = wrap64 (c + o + s + m) ∧ pageData.Slots.length = c + o + s + m

/-- A database block row for `slot`, with `proposer` and the orphaned flag. -/
def sampleBlock (slot proposer : Nat) (orphaned : Bool) : DbBlock :=
  { Slot := slot
    Orphaned := orphaned
    Proposer := proposer
    AttestationCount := 0
    DepositCount := 0
    ExitCount := 0
    ProposerSlashingCount := 0
    AttesterSlashingCount := 0
    SyncParticipation := 0
    EthTransactionCount := 0
    EthBlockNumber := 0
    Graffiti := []
    Root := [] }

/-- A chain with four slots per epoch whose current slot is 6.  The database
knows epoch 1 (slots 4 to 7) and answers, for every query, a canonical and an
orphaned block of slot 5, a nil entry and a block of slot 4. -/
def sampleEpochServices : EpochServices :=
  { now := 72
    TimeToSlot := fun t => t / 12
    EpochOfSlot := fun slot => slot / 4
    EpochToTime := fun epoch => epoch * 48
    SlotToTime := fun slot => slot * 12
    SlotsPerEpoch := 4
    GetFinalizedBlockHead := some 3
    GetProposerAssignments := fun _ _ => (fun slot => slot + 100, fun _ => true)
    GetDbEpochs := fun _ _ => [some ⟨0, 0, 0, 0, 0, 0, 0, 0, 0, 0, 0, 0, 10, 320⟩]
    GetDbBlocksForSlots := fun _ _ _ =>
      [some (sampleBlock 5 11 false), some (sampleBlock 5 12 true), none,
       some (sampleBlock 4 13 false)] }

/-- The epoch page of epoch 1 on the sample chain: slots 7 and 6 are
scheduled, slot 5 has a canonical and an orphaned block, slot 4 is missed
because the nil entry stops the walk through the database blocks. -/
def sampleEpochPage : EpochPageData :=
  { Epoch := 1
    PreviousEpoch := 0
    NextEpoch := 0
    Ts := 48
    Synchronized := true
    Finalized := false
    SyncParticipation := .mul (.ofFloat32 0) (.lit 100)
    ValidatorCount := 10
    AverageValidatorBalance := 32
    BlockCount := 5
    CanonicalCount := 1
    OrphanedCount := 1
    ScheduledCount := 2
    MissedCount := 1
    Slots :=
      [{ Slot := 7, Epoch := 1, Ts := 84, Scheduled := true, Proposer := 107 },
       { Slot := 6, Epoch := 1, Ts := 72, Scheduled := true, Proposer := 106 },
       { Slot := 5, Epoch := 1, Ts := 60, Status := 1, Proposer := 11,
         SyncParticipation := .mul (.ofFloat32 0) (.lit 100) },
       { Slot := 5, Epoch := 1, Ts := 60, Status := 2, Proposer := 12,
         SyncParticipation := .mul (.ofFloat32 0) (.lit 100) },
       { Slot := 4, Epoch := 1, Ts := 48, Proposer := 104 }] }

/-! ## Sample collaborators -/

/-- Services whose cache answers `res` to every call and whose database
answers `rows` to every query; no validator is known and names are empty. -/
def sampleServices (res : GoAny × Option GoError)
    (rows : List DbSlashing × Nat × Option GoError) : Services :=
  { ErrInvalidPageModel := .plain "*errors.errorString" "invalid page model"
    ProcessCachedPage := fun _ _ _ _ => res
    GetFinalizedEpoch := 0
    GetSlashingsFiltered := fun _ _ _ _ => rows
    GetCachedValidatorSet := fun _ => none
    GetValidatorActivity := (fun _ => 0, 0)
    GetValidatorName := fun _ => ""
    SlotToTime := fun _ => 0
    ValidatorStateString := fun _ => "unknown"
    UrlValuesEncode := fun _ => "" }

/-- The arguments of the default request. -/
def defaultArgs : SlashingsArgs := ⟨1, 50, 0, 0, 0, 0, "", "", 0, 1⟩

/-- The page model built for the default request from one database row out
of 120. -/
def samplePage : SlashingsPageData :=
  { FilterWithOrphaned := 1
    Slashings :=
      [{ SlotNumber := 5, Reason := 1, ValidatorIndex := 2, SlasherIndex := 3,
         ValidatorStatus := "Unknown" }]
    SlashingCount := 1
    FirstIndex := 5
    LastIndex := 5
    IsDefaultPage := true
    TotalPages := 3
    PageSize := 50
    CurrentPageIndex := 1
    NextPageIndex := 2
    LastPageIndex := 3
    FirstPageLink := "/validators/slashings?f&&c=50"
    PrevPageLink := "/validators/slashings?f&&c=50&p=0"
    NextPageLink := "/validators/slashings?f&&c=50&p=2"
    LastPageLink := "/validators/slashings?f&&c=50&p=3" }

/-- The page count written by `withPaging`, with the increment in `uint64`
arithmetic as the code computes it. -/
def pageCount (totalRows pageSize : Nat) : Nat :=
  if totalRows % pageSize > 0 then wrap64 (totalRows / pageSize + 1) else totalRows / pageSize

/-- The page model built from one database row out of 120 for the default
request with a page size above the cap, such as 101 or 200. -/
def sampleCappedPage : SlashingsPageData :=
  { samplePage with
    TotalPages := 2
    PageSize := 100
    LastPageIndex := 2
    FirstPageLink := "/validators/slashings?f&&c=100"
    PrevPageLink := "/validators/slashings?f&&c=100&p=0"
    NextPageLink := "/validators/slashings?f&&c=100&p=2"
    LastPageLink := "/validators/slashings?f&&c=100&p=2" }

/-- The number read back from decimal digits, most significant first. -/
def readDecimal (l : List Char) : Nat :=
  l.foldl (fun acc c => acc * 10 + (c.toNat - 48)) 0

/-! ## The cache key -/

/-- The ten fields of the cache key in their order, numbers in decimal. -/
def keyFields (a : SlashingsArgs) : List String :=
  [Nat.repr a.pageIdx, Nat.repr a.pageSize, Nat.repr a.minSlot, Nat.repr a.maxSlot,
   Nat.repr a.minIndex, Nat.repr a.maxIndex, a.vname, a.sname, Nat.repr a.withReason,
   Nat.repr a.withOrphaned]

/-- The query `f&f.vname=%3A`: a filter on the validator name `:`. -/
def queryValidatorColon : UrlValues := fun key =>
  if key = "f" then some [""] else if key = "f.vname" then some [":"] else none

/-- The query `f&f.sname=%3A`: a filter on the slasher name `:`. -/
def querySlasherColon : UrlValues := fun key =>
  if key = "f" then some [""] else if key = "f.sname" then some [":"] else none

/-- The query `c=0`: a page size of zero. -/
def queryPageSizeZero : UrlValues := fun key =>
  if key = "c" then some ["0"] else none

/-- The query `c=abc`: a page size that is not a number. -/
def queryPageSizeText : UrlValues := fun key =>
  if key = "c" then some ["abc"] else none

/-- C3: for every input the cache key is `slashings` followed by the ten
fields, each preceded by a colon, in the order pageIdx, pageSize, minSlot,
maxSlot, minIndex, maxIndex, vname, sname, withReason, withOrphaned, with
numbers in decimal and the two names verbatim; the key depends on nothing
else. -/
theorem pageCacheKey_format (a : SlashingsArgs) :
    (keyFields a).length = 10 ∧
    pageCacheKey a = "slashings" ++ String.join ((keyFields a).map (fun f => ":" ++ f)) := by
  refine ⟨rfl, ?_⟩
  apply String.ext
  simp [pageCacheKey, sprintf, sprintfChars, keyFields, fmtV, String.join]

/-- C1: two requests that differ in their name filters get one cache key.
The queries `f&f.vname=%3A` and `f&f.sname=%3A` make `Slashings` pass the
argument lists `(1, 50, 0, 0, 0, 0, ":", "", 0, 0)` and
`(1, 50, 0, 0, 0, 0, "", ":", 0, 0)`; these differ, and the key built for both
is `slashings:1:50:0:0:0:0::::0:0`. -/
theorem pageCacheKey_collision :
    slashingsRequestArgs queryValidatorColon = ⟨1, 50, 0, 0, 0, 0, ":", "", 0, 0⟩ ∧
    slashingsRequestArgs querySlasherColon = ⟨1, 50, 0, 0, 0, 0, "", ":", 0, 0⟩ ∧
    slashingsRequestArgs queryValidatorColon ≠ slashingsRequestArgs querySlasherColon ∧
    pageCacheKey (slashingsRequestArgs queryValidatorColon) = "slashings:1:50:0:0:0:0::::0:0" ∧
    pageCacheKey (slashingsRequestArgs querySlasherColon) = "slashings:1:50:0:0:0:0::::0:0" := by
  decide

/-- C8, as stated: the key of the default request is not the key of the
spec's scenario, which has one colon more. -/
theorem default_key_ne_scenario_key :
    pageCacheKey (slashingsRequestArgs emptyQuery) ≠ "slashings:1:50:0:0:0:0::::0:1" := by
  decide

/-- C8, amended: without query arguments `Slashings` passes page index 1, page
size 50, zero slot and index filters, empty names, withReason 0 and
withOrphaned 1, and the key built for them is `slashings:1:50:0:0:0:0:::0:1`. -/
theorem default_key :
    slashingsRequestArgs emptyQuery = ⟨1, 50, 0, 0, 0, 0, "", "", 0, 1⟩ ∧
    pageCacheKey ⟨1, 50, 0, 0, 0, 0, "", "", 0, 1⟩ = "slashings:1:50:0:0:0:0:::0:1" := by
  decide

/-! ## The typed result of the cache lookup -/

/-- C4: when the cache reports no error and hands back a non-nil payload
that is not a `*models.SlashingsPageData`, the lookup returns a nil page model
and `ErrInvalidPageModel`, which is not the (nil) error the cache reported. -/
theorem type_mismatch_reported (sv : Services) (a : SlashingsArgs)
    (herr : (slashingsCacheCall sv a).2 = none)
    (hnil : (slashingsCacheCall sv a).1 ≠ GoAny.nil)
    (hty : ∀ p, (slashingsCacheCall sv a).1 ≠ GoAny.slashingsPage p) :
    getFilteredSlashingsPageData sv a = (none, some sv.ErrInvalidPageModel) ∧
    (getFilteredSlashingsPageData sv a).2 ≠ (slashingsCacheCall sv a).2 := by
  have key : getFilteredSlashingsPageData sv a = (none, some sv.ErrInvalidPageModel) := by
    unfold getFilteredSlashingsPageData
    rcases hc : slashingsCacheCall sv a with ⟨pageRes, pageErr⟩
    rw [hc] at herr hnil hty
    simp only at herr hnil hty
    subst herr
    cases pageRes with
    | nil => exact absurd rfl hnil
    | slashingsPage p => exact absurd rfl (hty p)
    | other t => rfl
  refine ⟨key, ?_⟩
  rw [key, herr]
  simp

/-- Witness of C4: a cache that answers a string. -/
theorem type_mismatch_reported_witness :
    getFilteredSlashingsPageData (sampleServices (.other "string", none) ([], 0, none))
        defaultArgs
      = (none, some (GoError.plain "*errors.errorString" "invalid page model")) ∧
    (getFilteredSlashingsPageData (sampleServices (.other "string", none) ([], 0, none))
        defaultArgs).2
      ≠ (slashingsCacheCall (sampleServices (.other "string", none) ([], 0, none))
        defaultArgs).2 :=
  type_mismatch_reported (sampleServices (.other "string", none) ([], 0, none)) defaultArgs
    rfl (fun h => GoAny.noConfusion h) (fun _ h => GoAny.noConfusion h)

/-- C5: whatever payload comes with it, an error returned by the cache's
`ProcessCachedPage` is the error the lookup returns, unchanged. -/
theorem cache_error_returned (sv : Services) (a : SlashingsArgs) (e : GoError)
    (h : (slashingsCacheCall sv a).2 = some e) :
    (getFilteredSlashingsPageData sv a).2 = some e := by
  unfold getFilteredSlashingsPageData
  rcases hc : slashingsCacheCall sv a with ⟨pageRes, pageErr⟩
  rw [hc] at h
  simp only at h
  subst h
  rfl

/-- Witness of C5: a cache that reports `EPIPE` along with a payload of a
foreign type. -/
theorem cache_error_returned_witness :
    (getFilteredSlashingsPageData
        (sampleServices (.other "string", some (.errno EPIPE)) ([], 0, none)) defaultArgs).2
      = some (GoError.errno EPIPE) :=
  cache_error_returned (sampleServices (.other "string", some (.errno EPIPE)) ([], 0, none))
    defaultArgs (.errno EPIPE) rfl

/-- C6: when the cache reports no error and hands back a payload `p` of type
`*models.SlashingsPageData`, the lookup returns `p` and a nil error. -/
theorem cached_page_returned (sv : Services) (a : SlashingsArgs) (p : Option SlashingsPageData)
    (h : slashingsCacheCall sv a = (GoAny.slashingsPage p, none)) :
    getFilteredSlashingsPageData sv a = (p, none) := by
  unfold getFilteredSlashingsPageData
  rw [h]
  rfl

/-- Witness of C6: a cache that answers a page with page size 7, which is
not the placeholder. -/
theorem cached_page_returned_witness :
    getFilteredSlashingsPageData
        (sampleServices (.slashingsPage (some { PageSize := 7 }), none) ([], 0, none)) defaultArgs
      = (some { PageSize := 7 }, none) :=
  cached_page_returned
    (sampleServices (.slashingsPage (some { PageSize := 7 }), none) ([], 0, none)) defaultArgs
    (some { PageSize := 7 }) rfl

/-! ## The builder and the database -/

/-- C7: when the query `db.GetSlashingsFiltered` of the builder answers an
error `e`, the builder panics with `e` and returns no page model. -/
theorem build_panics_on_db_error (sv : Services) (a : SlashingsArgs) (e : GoError)
    (h : (slashingsDbCall sv a).2.2 = some e) :
    buildFilteredSlashingsPageData sv a = .error (.value e) ∧
    ∀ m, buildFilteredSlashingsPageData sv a ≠ .ok m := by
  have key : buildFilteredSlashingsPageData sv a = .error (.value e) := by
    unfold buildFilteredSlashingsPageData
    rcases hc : slashingsDbCall sv a with ⟨rows, total, err⟩
    rw [hc] at h
    simp only at h
    subst h
    rfl
  refine ⟨key, fun m hm => ?_⟩
  rw [key] at hm
  cases hm

/-- Witness of C7: a database that answers rows together with an error. -/
theorem build_panics_on_db_error_witness :
    buildFilteredSlashingsPageData
        (sampleServices (.nil, none) ([⟨5, [], false, 1, 2, 3⟩], 1, some (.plain "db" "down")))
        defaultArgs
      = .error (.value (.plain "db" "down")) ∧
    ∀ m, buildFilteredSlashingsPageData
        (sampleServices (.nil, none) ([⟨5, [], false, 1, 2, 3⟩], 1, some (.plain "db" "down")))
        defaultArgs ≠ .ok m :=
  build_panics_on_db_error
    (sampleServices (.nil, none) ([⟨5, [], false, 1, 2, 3⟩], 1, some (.plain "db" "down")))
    defaultArgs (.plain "db" "down") rfl

/-! ## The template error handler -/

/-- C10: `handleTemplateError` returns the error it was given; it appends
its log entry and the `http.Error` call with status 503 and message
`Internal server error` exactly when the error is non-nil and `errors.Is`
finds neither `EPIPE` nor `ETIMEDOUT` in it, and leaves log and response
untouched exactly when that is not so; an error that wraps `EPIPE` or
`ETIMEDOUT` at any depth is among the ignored ones.  Here `errors.Is` finds
an `Errno` target in a nil error never, in an `Errno` exactly when it is the
target, in an error without `Unwrap` never, in a wrapping error exactly when
it finds it in the wrapped one and in a joined error exactly when it finds it
in one of the joined ones; so `ECONNRESET` (104) is logged and answered with
503. -/
theorem handleTemplateError_spec (fx : Effects) (route file function info : String)
    (err : Option GoError) :
    (handleTemplateError fx route file function info err).1 = err ∧
    (((handleTemplateError fx route file function info err).2.log
          = fx.log ++ [templateErrorRecord route file function info err] ∧
        (handleTemplateError fx route file function info err).2.httpErrors
          = fx.httpErrors ++ [("Internal server error", 503)])
      ↔ (err ≠ none ∧ errorsIs err EPIPE = false ∧ errorsIs err ETIMEDOUT = false)) ∧
    (((handleTemplateError fx route file function info err).2.log = fx.log ∧
        (handleTemplateError fx route file function info err).2.httpErrors = fx.httpErrors)
      ↔ ¬ (err ≠ none ∧ errorsIs err EPIPE = false ∧ errorsIs err ETIMEDOUT = false)) ∧
    (∀ t m e, errorsIs (some (GoError.wrap t m e)) EPIPE = errorsIs (some e) EPIPE ∧
      errorsIs (some (GoError.wrap t m e)) ETIMEDOUT = errorsIs (some e) ETIMEDOUT) ∧
    (∀ target : Nat,
      errorsIs none target = false ∧
      (∀ n, errorsIs (some (GoError.errno n)) target = decide (n = target)) ∧
      (∀ t m, errorsIs (some (GoError.plain t m)) target = false) ∧
      (∀ t m e, errorsIs (some (GoError.wrap t m e)) target = errorsIs (some e) target) ∧
      (∀ t, errorsIs (some (GoError.join t [])) target = false) ∧
      (∀ t e es, errorsIs (some (GoError.join t (e :: es))) target
        = (errorsIs (some e) target || errorsIs (some (GoError.join t es)) target))) ∧
    EPIPE = 32 ∧ ETIMEDOUT = 110 ∧
    (handleTemplateError fx route file function info (some (GoError.errno 104))).2.httpErrors
      = fx.httpErrors ++ [("Internal server error", 503)] := by
  have hcond : (err.isSome && !errorsIs err EPIPE && !errorsIs err ETIMEDOUT) = true ↔
      (err ≠ none ∧ errorsIs err EPIPE = false ∧ errorsIs err ETIMEDOUT = false) := by
    cases err <;> simp [and_assoc]
  refine ⟨?_, ?_, ?_, ?_, ?_, rfl, rfl, rfl⟩
  · unfold handleTemplateError
    split <;> rfl
  · rw [← hcond]
    unfold handleTemplateError
    split
    · rename_i h
      simp [h, StatusServiceUnavailable]
    · rename_i h
      simp [h]
  · rw [← hcond]
    unfold handleTemplateError
    split
    · rename_i h
      simp [h]
    · rename_i h
      simp [h]
  · intro t m e
    simp [errorsIs, isErrno]
  · intro target
    refine ⟨rfl, ?_, fun _ _ => rfl, ?_, ?_, ?_⟩
    · intro n
      simp only [errorsIs, isErrno]
      by_cases h : n = target <;> simp [h]
    · intro t m e
      simp [errorsIs, isErrno]
    · intro t
      simp [errorsIs, isErrno, isErrnoAny]
    · intro t e es
      simp [errorsIs, isErrno, isErrnoAny]

/-! ## Page models and cache keys -/

/-- A returned page model carries the page index, the capped page size and
the eight filter values of the arguments it was built from. -/
theorem build_ok_fields (sv : Services) (a : SlashingsArgs) (m : SlashingsPageData)
    (h : buildFilteredSlashingsPageData sv a = .ok m) :
    m.CurrentPageIndex = a.pageIdx ∧ m.PageSize = cappedPageSize a ∧
    m.FilterMinSlot = a.minSlot ∧ m.FilterMaxSlot = a.maxSlot ∧
    m.FilterMinIndex = a.minIndex ∧ m.FilterMaxIndex = a.maxIndex ∧
    m.FilterValidatorName = a.vname ∧ m.FilterSlasherName = a.sname ∧
    m.FilterWithReason = a.withReason ∧ m.FilterWithOrphaned = a.withOrphaned := by
  unfold buildFilteredSlashingsPageData at h
  rcases hc : slashingsDbCall sv a with ⟨rows, total, err⟩
  rw [hc] at h
  cases err with
  | some e => cases h
  | none =>
    simp only at h
    split at h
    · cases h
    · injection h with h
      subst h
      simp only [withLinks, withPaging, withSlashings, initialPageData]
      repeat' split
      all_goals simp

/-- The builder reads the page size only through its capped value: argument
lists that agree in everything but the page size and have one capped page size
make the builder behave alike with every database and chain state. -/
theorem build_eq_of_capped_eq (sv : Services) (a₁ a₂ : SlashingsArgs)
    (hrest : { a₁ with pageSize := 0 } = { a₂ with pageSize := 0 })
    (hcap : cappedPageSize a₁ = cappedPageSize a₂) :
    buildFilteredSlashingsPageData sv a₁ = buildFilteredSlashingsPageData sv a₂ := by
  obtain ⟨i₁, s₁, b₁, c₁, d₁, e₁, v₁, n₁, r₁, o₁⟩ := a₁
  obtain ⟨i₂, s₂, b₂, c₂, d₂, e₂, v₂, n₂, r₂, o₂⟩ := a₂
  simp only [SlashingsArgs.mk.injEq, true_and] at hrest
  obtain ⟨rfl, rfl, rfl, rfl, rfl, rfl, rfl, rfl, rfl⟩ := hrest
  simp only [buildFilteredSlashingsPageData, initialPageData, slashingsDbCall, withPaging,
    withLinks, slashingsFilterArgs, hcap]

/-- C2, as stated: the argument lists of the default request with page size
101 and with page size 200 make the builder return the same result with every
database and chain state, and their cache keys differ. -/
theorem same_model_different_key :
    (∀ sv : Services,
      buildFilteredSlashingsPageData sv ⟨1, 101, 0, 0, 0, 0, "", "", 0, 1⟩
        = buildFilteredSlashingsPageData sv ⟨1, 200, 0, 0, 0, 0, "", "", 0, 1⟩) ∧
    pageCacheKey ⟨1, 101, 0, 0, 0, 0, "", "", 0, 1⟩
      ≠ pageCacheKey ⟨1, 200, 0, 0, 0, 0, "", "", 0, 1⟩ :=
  ⟨fun sv => build_eq_of_capped_eq sv _ _ (by decide) (by decide), by decide⟩

/-- The decimal digit character of a number below ten has that number as
its distance from `'0'`. -/
theorem digitChar_value (k : Nat) (h : k < 10) : (Nat.digitChar k).toNat - 48 = k := by
  interval_cases k <;> rfl

/-- Reading back the digits produced by the digit loop continues the number
they were produced from. -/
theorem foldl_toDigitsCore (fuel : Nat) :
    ∀ (n : Nat) (ds : List Char), n < fuel →
      (Nat.toDigitsCore 10 fuel n ds).foldl (fun acc c => acc * 10 + (c.toNat - 48)) 0
        = ds.foldl (fun acc c => acc * 10 + (c.toNat - 48)) n := by
  induction fuel with
  | zero =>
    intro n ds h
    omega
  | succ fuel ih =>
    intro n ds h
    unfold Nat.toDigitsCore
    simp only
    split
    · simp only [List.foldl_cons, digitChar_value (n % 10) (Nat.mod_lt _ (by decide))]
      congr 1
      omega
    · rw [ih (n / 10) _ (by omega)]
      simp only [List.foldl_cons, digitChar_value (n % 10) (Nat.mod_lt _ (by decide))]
      congr 1
      omega

/-- The decimal rendering of a number reads back as that number. -/
theorem readDecimal_repr (n : Nat) : readDecimal (Nat.repr n).data = n := by
  unfold readDecimal Nat.repr Nat.toDigits
  simp only [List.asString]
  rw [foldl_toDigitsCore (n + 1) n [] (by omega)]
  rfl

/-- Different numbers have different decimal renderings. -/
theorem repr_data_injective (m n : Nat) (h : (Nat.repr m).data = (Nat.repr n).data) :
    m = n := by
  have := congrArg readDecimal h
  rwa [readDecimal_repr, readDecimal_repr] at this

/-- Argument lists that agree in everything but the page size and get one
cache key have one page size: the key tells raw page sizes apart. -/
theorem pageSize_eq_of_key_eq (a₁ a₂ : SlashingsArgs)
    (hrest : { a₁ with pageSize := 0 } = { a₂ with pageSize := 0 })
    (hkey : pageCacheKey a₁ = pageCacheKey a₂) : a₁.pageSize = a₂.pageSize := by
  obtain ⟨i₁, s₁, b₁, c₁, d₁, e₁, v₁, n₁, r₁, o₁⟩ := a₁
  obtain ⟨i₂, s₂, b₂, c₂, d₂, e₂, v₂, n₂, r₂, o₂⟩ := a₂
  simp only [SlashingsArgs.mk.injEq, true_and] at hrest
  obtain ⟨rfl, rfl, rfl, rfl, rfl, rfl, rfl, rfl, rfl⟩ := hrest
  have h := congrArg String.data hkey
  simp only [pageCacheKey, sprintf, sprintfChars, fmtV] at h
  simp only [List.cons.injEq, true_and, List.append_cancel_left_eq] at h
  exact repr_data_injective s₁ s₂ (List.append_cancel_right h)

/-- C2, amended: when for two argument lists the builder returns the same
page model, already with one database and chain state, then the builder
behaves alike for both with every state, and their cache keys are equal
exactly when their page sizes are equal.  Lists with equal page sizes share
the key; lists whose page sizes differ, which can build one model only when
both are at least the cap of 100, get different keys. -/
theorem same_model_key_iff (sv : Services) (a₁ a₂ : SlashingsArgs) (m : SlashingsPageData)
    (h₁ : buildFilteredSlashingsPageData sv a₁ = .ok m)
    (h₂ : buildFilteredSlashingsPageData sv a₂ = .ok m) :
    (∀ sv' : Services,
      buildFilteredSlashingsPageData sv' a₁ = buildFilteredSlashingsPageData sv' a₂) ∧
    (pageCacheKey a₁ = pageCacheKey a₂ ↔ a₁.pageSize = a₂.pageSize) ∧
    (a₁.pageSize ≠ a₂.pageSize → 100 ≤ a₁.pageSize ∧ 100 ≤ a₂.pageSize) := by
  obtain ⟨g1, g2, g3, g4, g5, g6, g7, g8, g9, g10⟩ := build_ok_fields sv a₁ m h₁
  obtain ⟨k1, k2, k3, k4, k5, k6, k7, k8, k9, k10⟩ := build_ok_fields sv a₂ m h₂
  have hcap : cappedPageSize a₁ = cappedPageSize a₂ := by rw [← g2, ← k2]
  have hrest : { a₁ with pageSize := 0 } = { a₂ with pageSize := 0 } := by
    simp only [SlashingsArgs.mk.injEq, true_and]
    exact ⟨g1.symm.trans k1, g3.symm.trans k3, g4.symm.trans k4, g5.symm.trans k5,
      g6.symm.trans k6, g7.symm.trans k7, g8.symm.trans k8, g9.symm.trans k9,
      g10.symm.trans k10⟩
  refine ⟨fun sv' => build_eq_of_capped_eq sv' a₁ a₂ hrest hcap, ⟨?_, ?_⟩, ?_⟩
  · exact pageSize_eq_of_key_eq a₁ a₂ hrest
  · intro hps
    have h12 : a₁ = a₂ := by
      obtain ⟨i₁, s₁, b₁, c₁, d₁, e₁, v₁, n₁, r₁, o₁⟩ := a₁
      obtain ⟨i₂, s₂, b₂, c₂, d₂, e₂, v₂, n₂, r₂, o₂⟩ := a₂
      simp only [SlashingsArgs.mk.injEq, true_and] at hrest
      simp only at hps
      simp only [SlashingsArgs.mk.injEq]
      exact ⟨hrest.1, hps, hrest.2⟩
    rw [h12]
  · intro hne
    have e₁ : cappedPageSize a₁ = min a₁.pageSize 100 := by
      unfold cappedPageSize
      split <;> omega
    have e₂ : cappedPageSize a₂ = min a₂.pageSize 100 := by
      unfold cappedPageSize
      split <;> omega
    rw [e₁, e₂] at hcap
    omega

/-- Witness of C2, amended: with one database row out of 120 the default
request with page size 101 and the one with page size 200 build the same
model, and their keys differ as their page sizes do. -/
theorem same_model_key_iff_witness :
    buildFilteredSlashingsPageData
        (sampleServices (.nil, none) ([⟨5, [], false, 1, 2, 3⟩], 120, none))
        ⟨1, 101, 0, 0, 0, 0, "", "", 0, 1⟩ = .ok sampleCappedPage ∧
    buildFilteredSlashingsPageData
        (sampleServices (.nil, none) ([⟨5, [], false, 1, 2, 3⟩], 120, none))
        ⟨1, 200, 0, 0, 0, 0, "", "", 0, 1⟩ = .ok sampleCappedPage ∧
    (∀ sv' : Services,
      buildFilteredSlashingsPageData sv' ⟨1, 101, 0, 0, 0, 0, "", "", 0, 1⟩
        = buildFilteredSlashingsPageData sv' ⟨1, 200, 0, 0, 0, 0, "", "", 0, 1⟩) ∧
    (pageCacheKey ⟨1, 101, 0, 0, 0, 0, "", "", 0, 1⟩ = pageCacheKey ⟨1, 200, 0, 0, 0, 0, "", "", 0, 1⟩
      ↔ (101 : Nat) = 200) ∧
    ((101 : Nat) ≠ 200 → 100 ≤ (101 : Nat) ∧ 100 ≤ (200 : Nat)) :=
  ⟨rfl, rfl,
    same_model_key_iff (sampleServices (.nil, none) ([⟨5, [], false, 1, 2, 3⟩], 120, none))
      ⟨1, 101, 0, 0, 0, 0, "", "", 0, 1⟩ ⟨1, 200, 0, 0, 0, 0, "", "", 0, 1⟩ sampleCappedPage
      rfl rfl⟩

/-! ## Paging -/

/-- The capped page size is zero only for a page size of zero, and it is at
most 100. -/
theorem cappedPageSize_eq_min (a : SlashingsArgs) : cappedPageSize a = min a.pageSize 100 := by
  unfold cappedPageSize
  split <;> omega

/-- With a page size of zero the builder ends in the division by zero
whenever the database query succeeds. -/
theorem build_zero_page_size (sv : Services) (a : SlashingsArgs) (hz : a.pageSize = 0)
    (hdb : (slashingsDbCall sv a).2.2 = none) :
    buildFilteredSlashingsPageData sv a = .error .divideByZero := by
  have hc : cappedPageSize a = 0 := by rw [cappedPageSize_eq_min, hz]; rfl
  unfold buildFilteredSlashingsPageData
  rcases hq : slashingsDbCall sv a with ⟨rows, total, err⟩
  rw [hq] at hdb
  simp only at hdb
  subst hdb
  simp only [hc, if_true]

/-- With a page size of at least one the builder returns the model assembled
by its four stages whenever the database query succeeds. -/
theorem build_ok_of_page_size (sv : Services) (a : SlashingsArgs) (rows : List DbSlashing)
    (total : Nat) (hps : 1 ≤ a.pageSize) (hdb : slashingsDbCall sv a = (rows, total, none)) :
    buildFilteredSlashingsPageData sv a =
      .ok (withLinks sv a (withPaging a total (withSlashings sv rows (initialPageData a)))) := by
  have hc : cappedPageSize a ≠ 0 := by rw [cappedPageSize_eq_min]; omega
  unfold buildFilteredSlashingsPageData
  rw [hdb]
  simp only [hc, if_false]

/-- C11: the requests `c=0` and `c=abc` make `Slashings` pass a page size of
zero, and with it the builder, after a successful database query, stops in the
integer division by zero of the `TotalPages` computation instead of returning
a page model. -/
theorem build_divides_by_zero :
    slashingsRequestArgs queryPageSizeZero = ⟨1, 0, 0, 0, 0, 0, "", "", 0, 1⟩ ∧
    slashingsRequestArgs queryPageSizeText = ⟨1, 0, 0, 0, 0, 0, "", "", 0, 1⟩ ∧
    (slashingsDbCall (sampleServices (.nil, none) ([⟨5, [], false, 1, 2, 3⟩], 120, none))
        ⟨1, 0, 0, 0, 0, 0, "", "", 0, 1⟩).2.2 = none ∧
    buildFilteredSlashingsPageData
        (sampleServices (.nil, none) ([⟨5, [], false, 1, 2, 3⟩], 120, none))
        ⟨1, 0, 0, 0, 0, 0, "", "", 0, 1⟩
      = .error .divideByZero :=
  ⟨by decide, by decide, rfl, rfl⟩

theorem withPaging_TotalPages (a : SlashingsArgs) (total : Nat) (p : SlashingsPageData) :
    (withPaging a total p).TotalPages = pageCount total (cappedPageSize a) := by
  unfold withPaging pageCount
  simp only
  split <;> split <;> rfl

theorem withPaging_LastPageIndex (a : SlashingsArgs) (total : Nat) (p : SlashingsPageData) :
    (withPaging a total p).LastPageIndex = pageCount total (cappedPageSize a) := by
  unfold withPaging pageCount
  simp only
  split <;> split <;> rfl

theorem withPaging_NextPageIndex (a : SlashingsArgs) (total : Nat) (p : SlashingsPageData) :
    (withPaging a total p).NextPageIndex =
      if a.pageIdx < pageCount total (cappedPageSize a) then wrap64 (a.pageIdx + 1)
      else p.NextPageIndex := by
  unfold withPaging pageCount
  simp only
  split <;> split <;> rfl

theorem withPaging_PageSize (a : SlashingsArgs) (total : Nat) (p : SlashingsPageData) :
    (withPaging a total p).PageSize = p.PageSize := by
  unfold withPaging
  simp only
  split <;> split <;> rfl

theorem withSlashings_paging_fields (sv : Services) (rows : List DbSlashing)
    (p : SlashingsPageData) :
    (withSlashings sv rows p).PageSize = p.PageSize ∧
    (withSlashings sv rows p).NextPageIndex = p.NextPageIndex := by
  unfold withSlashings
  simp only
  split <;> exact ⟨rfl, rfl⟩

theorem initialPageData_paging_fields (a : SlashingsArgs) :
    (initialPageData a).PageSize = cappedPageSize a ∧ (initialPageData a).NextPageIndex = 0 := by
  unfold initialPageData
  simp only
  split <;> split <;> exact ⟨rfl, rfl⟩

/-- For a page size between 1 and 100 and a row count that fits `uint64`
the increment of the page count does not overflow, and the count is the
rounded-up quotient. -/
theorem pageCount_eq_ceil (total ps : Nat) (h1 : 1 ≤ ps) (htot : total < 2 ^ 64) :
    pageCount total ps = (total + ps - 1) / ps ∧
    pageCount total ps = total / ps + (if total % ps > 0 then 1 else 0) ∧
    pageCount total ps < 2 ^ 64 := by
  have hdm := Nat.div_add_mod total ps
  have hlt := Nat.mod_lt total (show ps > 0 by omega)
  have hq : total / ps ≤ total := Nat.div_le_self total ps
  have hceil : (total + ps - 1) / ps = total / ps + (if total % ps > 0 then 1 else 0) := by
    split
    · rename_i hr
      have : total + ps - 1 = (total % ps - 1) + ps * (total / ps + 1) := by
        rw [Nat.mul_add]; omega
      rw [this, Nat.add_mul_div_left _ _ (show 0 < ps by omega)]
      rw [Nat.div_eq_of_lt (by omega)]
      omega
    · rename_i hr
      have hr0 : total % ps = 0 := by omega
      have : total + ps - 1 = (ps - 1) + ps * (total / ps) := by omega
      rw [this, Nat.add_mul_div_left _ _ (show 0 < ps by omega)]
      rw [Nat.div_eq_of_lt (by omega)]
      omega
  have hsmall : total % ps > 0 → total / ps + 1 < 2 ^ 64 := by
    intro hr
    have h2 : 2 ≤ ps := by
      rcases Nat.lt_or_ge ps 2 with h | h
      · have h1' : ps = 1 := by omega
        rw [h1', Nat.mod_one] at hr
        omega
      · exact h
    have : 2 * (total / ps) ≤ ps * (total / ps) := Nat.mul_le_mul_right _ h2
    omega
  unfold pageCount wrap64
  split
  · rename_i hr
    have := hsmall hr
    rw [Nat.mod_eq_of_lt this]
    rw [hceil, if_pos hr]
    exact ⟨rfl, rfl, this⟩
  · rename_i hr
    rw [hceil, if_neg hr]
    refine ⟨by omega, by omega, by omega⟩

/-- C12: for a page size of at least one and a row count reported by a
successful query, with `ps = min pageSize 100`, the builder returns a model
with `PageSize = ps`, with `TotalPages = LastPageIndex` equal to the rounded-up
quotient of the row count by `ps` (the least `n` with `n * ps` at least the
row count, reached without `uint64` overflow), and with `NextPageIndex` equal
to `pageIdx + 1` when `pageIdx < TotalPages` and to `0` otherwise. -/
theorem paging_spec (sv : Services) (a : SlashingsArgs) (rows : List DbSlashing) (total : Nat)
    (hps : 1 ≤ a.pageSize) (htot : total < 2 ^ 64)
    (hdb : slashingsDbCall sv a = (rows, total, none)) :
    ∃ m, buildFilteredSlashingsPageData sv a = .ok m ∧
      m.PageSize = min a.pageSize 100 ∧
      m.LastPageIndex = m.TotalPages ∧
      m.TotalPages = (total + min a.pageSize 100 - 1) / min a.pageSize 100 ∧
      m.TotalPages =
        total / min a.pageSize 100 + (if total % min a.pageSize 100 > 0 then 1 else 0) ∧
      total ≤ m.TotalPages * min a.pageSize 100 ∧
      (∀ n, total ≤ n * min a.pageSize 100 → m.TotalPages ≤ n) ∧
      m.NextPageIndex = (if a.pageIdx < m.TotalPages then a.pageIdx + 1 else 0) := by
  refine ⟨_, build_ok_of_page_size sv a rows total hps hdb, ?_⟩
  have hcap := cappedPageSize_eq_min a
  have hps1 : 1 ≤ min a.pageSize 100 := by omega
  obtain ⟨hc1, hc2, hc3⟩ := pageCount_eq_ceil total (min a.pageSize 100) hps1 htot
  have hTP : (withLinks sv a (withPaging a total
      (withSlashings sv rows (initialPageData a)))).TotalPages
      = pageCount total (min a.pageSize 100) := by
    rw [← hcap, ← withPaging_TotalPages a total (withSlashings sv rows (initialPageData a))]
    rfl
  have hLP : (withLinks sv a (withPaging a total
      (withSlashings sv rows (initialPageData a)))).LastPageIndex
      = pageCount total (min a.pageSize 100) := by
    rw [← hcap, ← withPaging_LastPageIndex a total (withSlashings sv rows (initialPageData a))]
    rfl
  have hPS : (withLinks sv a (withPaging a total
      (withSlashings sv rows (initialPageData a)))).PageSize = min a.pageSize 100 := by
    rw [← hcap, ← (initialPageData_paging_fields a).1,
      ← (withSlashings_paging_fields sv rows (initialPageData a)).1,
      ← withPaging_PageSize a total (withSlashings sv rows (initialPageData a))]
    rfl
  have hNP : (withLinks sv a (withPaging a total
      (withSlashings sv rows (initialPageData a)))).NextPageIndex
      = if a.pageIdx < pageCount total (min a.pageSize 100) then wrap64 (a.pageIdx + 1)
        else 0 := by
    rw [← hcap, ← (initialPageData_paging_fields a).2,
      ← (withSlashings_paging_fields sv rows (initialPageData a)).2,
      ← withPaging_NextPageIndex a total (withSlashings sv rows (initialPageData a))]
    rfl
  rw [hTP, hLP, hPS, hNP]
  have hdm := Nat.div_add_mod total (min a.pageSize 100)
  have hlt := Nat.mod_lt total (show min a.pageSize 100 > 0 by omega)
  refine ⟨rfl, rfl, hc1, hc2, ?_, ?_, ?_⟩
  · rw [hc2, Nat.add_mul, Nat.mul_comm (total / min a.pageSize 100)]
    split
    · omega
    · omega
  · intro n hn
    rw [hc2]
    by_contra hcon
    have hcon' : n + 1 ≤ total / min a.pageSize 100 +
        (if total % min a.pageSize 100 > 0 then 1 else 0) := by omega
    split at hcon'
    · have hle : n ≤ total / min a.pageSize 100 := by omega
      have := Nat.mul_le_mul_right (min a.pageSize 100) hle
      rw [Nat.mul_comm (total / min a.pageSize 100)] at this
      omega
    · have hle : n + 1 ≤ total / min a.pageSize 100 := by omega
      have := Nat.mul_le_mul_right (min a.pageSize 100) hle
      rw [Nat.mul_comm (total / min a.pageSize 100), Nat.add_mul] at this
      omega
  · split
    · rename_i hlt'
      unfold wrap64
      rw [Nat.mod_eq_of_lt (by omega)]
    · rfl

/-- Witness of C12: the default request against a database that reports 120
rows has page size 50, three pages, last page 3 and next page 2. -/
theorem paging_spec_witness :
    ∃ m, buildFilteredSlashingsPageData
        (sampleServices (.nil, none) ([⟨5, [], false, 1, 2, 3⟩], 120, none)) defaultArgs = .ok m ∧
      m.PageSize = min defaultArgs.pageSize 100 ∧
      m.LastPageIndex = m.TotalPages ∧
      m.TotalPages = (120 + min defaultArgs.pageSize 100 - 1) / min defaultArgs.pageSize 100 ∧
      m.TotalPages =
        120 / min defaultArgs.pageSize 100 +
          (if 120 % min defaultArgs.pageSize 100 > 0 then 1 else 0) ∧
      120 ≤ m.TotalPages * min defaultArgs.pageSize 100 ∧
      (∀ n, 120 ≤ n * min defaultArgs.pageSize 100 → m.TotalPages ≤ n) ∧
      m.NextPageIndex = (if defaultArgs.pageIdx < m.TotalPages then defaultArgs.pageIdx + 1
        else 0) :=
  paging_spec (sampleServices (.nil, none) ([⟨5, [], false, 1, 2, 3⟩], 120, none)) defaultArgs
    [⟨5, [], false, 1, 2, 3⟩] 120 (by decide) (by decide) rfl

/-! ## The counters of the epoch page -/

theorem wrap64_succ (n : Nat) : wrap64 (wrap64 n + 1) = wrap64 (n + 1) := by
  unfold wrap64
  omega

theorem epochHeader_counts (es : EpochServices) (epoch nextEpoch lastSlot finalizedSlot : Nat)
    (syncedEpochs : Nat → Bool) (dbEpoch : DbEpoch) :
    CountsAgree (epochHeader es epoch nextEpoch lastSlot finalizedSlot syncedEpochs dbEpoch) 0 := by
  refine ⟨0, 0, 0, 0, ?_⟩
  unfold epochHeader
  simp only
  split <;> exact ⟨rfl, rfl, rfl, rfl, rfl, rfl⟩

theorem addBlockSlot_counts (es : EpochServices) (slot : Nat) (dbSlot : DbBlock)
    (pageData : EpochPageData) (blockCount : Nat) (h : CountsAgree pageData blockCount) :
    CountsAgree (addBlockSlot es slot dbSlot pageData) (wrap64 (blockCount + 1)) := by
  obtain ⟨c, o, s, m, hc, ho, hs, hm, hb, hl⟩ := h
  unfold addBlockSlot
  simp only
  split
  · refine ⟨c, o + 1, s, m, hc, ?_, hs, hm, ?_, ?_⟩
    · simp only [ho, wrap64_succ]
    · rw [hb, wrap64_succ]
      congr 1
      omega
    · simp only [List.length_append, List.length_singleton, hl]
      omega
  · refine ⟨c + 1, o, s, m, ?_, ho, hs, hm, ?_, ?_⟩
    · simp only [hc, wrap64_succ]
    · rw [hb, wrap64_succ]
      congr 1
      omega
    · simp only [List.length_append, List.length_singleton, hl]
      omega

theorem addEmptySlot_counts (es : EpochServices) (epoch currentSlot slot : Nat)
    (slotAssignments : Nat → Nat) (pageData : EpochPageData) (blockCount : Nat)
    (h : CountsAgree pageData blockCount) :
    CountsAgree (addEmptySlot es epoch currentSlot slot slotAssignments pageData)
      (wrap64 (blockCount + 1)) := by
  obtain ⟨c, o, s, m, hc, ho, hs, hm, hb, hl⟩ := h
  unfold addEmptySlot
  simp only
  split
  · refine ⟨c, o, s + 1, m, hc, ho, ?_, hm, ?_, ?_⟩
    · simp only [hs, wrap64_succ]
    · rw [hb, wrap64_succ]
      congr 1
      omega
    · simp only [List.length_append, List.length_singleton, hl]
      omega
  · refine ⟨c, o, s, m + 1, hc, ho, hs, ?_, ?_, ?_⟩
    · simp only [hm, wrap64_succ]
    · rw [hb, wrap64_succ]
      rfl
    · simp only [List.length_append, List.length_singleton, hl]
      rfl

theorem blockLoop_counts (es : EpochServices) (slot : Nat) (dbSlots : List (Option DbBlock)) :
    ∀ (pageData : EpochPageData) (blockCount : Nat) (haveBlock : Bool),
      CountsAgree pageData blockCount →
      CountsAgree (blockLoop es slot dbSlots pageData blockCount haveBlock).1.pageData
        (blockLoop es slot dbSlots pageData blockCount haveBlock).1.blockCount := by
  induction dbSlots with
  | nil =>
    intro pageData blockCount haveBlock h
    simpa [blockLoop] using h
  | cons x rest ih =>
    intro pageData blockCount haveBlock h
    cases x with
    | none => simpa [blockLoop] using h
    | some dbSlot =>
      unfold blockLoop
      split
      · exact ih _ _ _ (addBlockSlot_counts es slot dbSlot pageData blockCount h)
      · exact h

theorem slotStep_counts (es : EpochServices) (epoch currentSlot : Nat)
    (slotAssignments : Nat → Nat) (slotIdx : Int) (st : SlotLoopState)
    (h : CountsAgree st.pageData st.blockCount) :
    CountsAgree (slotStep es epoch currentSlot slotAssignments slotIdx st).pageData
      (slotStep es epoch currentSlot slotAssignments slotIdx st).blockCount := by
  have hb := blockLoop_counts es (ofInt64 slotIdx) st.dbSlots st.pageData st.blockCount false h
  unfold slotStep
  simp only
  split
  · exact addEmptySlot_counts es epoch currentSlot _ slotAssignments _ _ hb
  · exact hb

theorem slotLoop_counts (es : EpochServices) (epoch currentSlot : Nat)
    (slotAssignments : Nat → Nat) (n : Nat) :
    ∀ (slotIdx : Int) (st : SlotLoopState), CountsAgree st.pageData st.blockCount →
      CountsAgree (slotLoop es epoch currentSlot slotAssignments n slotIdx st).pageData
        (slotLoop es epoch currentSlot slotAssignments n slotIdx st).blockCount := by
  induction n with
  | zero =>
    intro slotIdx st h
    exact h
  | succ n ih =>
    intro slotIdx st h
    unfold slotLoop
    exact ih _ _ (slotStep_counts es epoch currentSlot slotAssignments slotIdx st h)

/-- C13: whenever `getEpochPageData` returns a page model, whatever the
epoch, the current slot and the database blocks (in any order, nil entries
included), `BlockCount` is the length of `Slots` and that length is the sum of
the canonical, orphaned, scheduled and missed counters.  The length of the
returned slice is taken below `2 ^ 64`, as the length of every Go slice is. -/
theorem epoch_counts (es : EpochServices) (epoch : Nat) (page : EpochPageData)
    (h : getEpochPageData es epoch = .ok (some page)) (hlen : page.Slots.length < 2 ^ 64) :
    page.BlockCount = page.Slots.length ∧
    page.Slots.length =
      page.CanonicalCount + page.OrphanedCount + page.ScheduledCount + page.MissedCount := by
  have key : ∃ p bc, CountsAgree p bc ∧ page = { p with BlockCount := bc } := by
    unfold getEpochPageData at h
    simp only at h
    split at h
    · cases h
    · split at h
      · cases h
      · cases h
      · split at h
        · cases h
        · split at h
          · cases h
          · split at h
            · cases h
            · injection h with h
              injection h with h
              exact ⟨_, _, slotLoop_counts es epoch _ _ _ _ _
                (epochHeader_counts es epoch _ _ _ _ _), h.symm⟩
  obtain ⟨p, bc, ⟨c, o, s, m, hc, ho, hs, hm, hb, hl⟩, rfl⟩ := key
  simp only at hlen ⊢
  rw [hl] at hlen
  rw [hc, ho, hs, hm, hb, hl]
  unfold wrap64
  rw [Nat.mod_eq_of_lt hlen, Nat.mod_eq_of_lt (by omega), Nat.mod_eq_of_lt (by omega),
    Nat.mod_eq_of_lt (by omega), Nat.mod_eq_of_lt (by omega)]
  exact ⟨rfl, rfl⟩

/-- Witness of C13: epoch 1 of the sample chain, with five entries: one
canonical, one orphaned, two scheduled and one missed. -/
theorem epoch_counts_witness :
    getEpochPageData sampleEpochServices 1 = .ok (some sampleEpochPage) ∧
    sampleEpochPage.BlockCount = sampleEpochPage.Slots.length ∧
    sampleEpochPage.Slots.length =
      sampleEpochPage.CanonicalCount + sampleEpochPage.OrphanedCount +
        sampleEpochPage.ScheduledCount + sampleEpochPage.MissedCount :=
  ⟨rfl, epoch_counts sampleEpochServices 1 sampleEpochPage rfl (by decide)⟩

end Dora
